import Mathlib

/-!
A shallow embedding of `src/Bitmap.h` (the `Bitmap<Pixel>` class instantiated
at `Pixel::BGR24`, the instantiation used by the repository, so
`sizeof(Pixel) = 3`), together with theorems settling the frozen claims.

Conventions used throughout:
* machine integers are modelled as `Nat` (unsigned) or `Int` (signed), with
  explicit reductions modulo `2^32` / `2^64` exactly where the C++ arithmetic
  wraps or converts;
* files and raw memory are byte lists (`List Nat`, each entry < 256 when the
  bytes come from the code's own serialization);
* a 24-bit pixel is the natural number `b + 256*g + 65536*r`, so its memory
  image under `#pragma pack(1)` is exactly its 3 little-endian bytes;
* `FILE*` I/O is modelled by passing the file contents as a byte list; an
  `fread` that hits end-of-file leaves the untouched suffix of the destination
  struct at its previous bytes, as `fread` does.
-/

/-! ## Machine arithmetic -/

/-- `2^32`. -/
def pow32 : Nat := 4294967296

/-- `2^64`. -/
def pow64 : Nat := 18446744073709551616

/-- Reinterpret an integer as a signed 32-bit value (two's complement wrap),
the effect of storing into an `int32_t` field or of `int` overflow as it
behaves on the targeted implementations. -/
def wrap32 (x : Int) : Int :=
  if x % 4294967296 < 2147483648 then x % 4294967296 else x % 4294967296 - 4294967296

/-- The 32-bit two's complement byte pattern of a signed value, as a natural
number in `[0, 2^32)`; this is what lands in the file for an `int32_t` field. -/
def int32bits (i : Int) : Nat := (i % 4294967296).toNat

/-- Conversion of a signed value to `uint64_t` / `size_t` (sign extension then
reinterpretation), as in `(size_t)(int)x`. -/
def toU64 (i : Int) : Nat := (i % 18446744073709551616).toNat

/-! ## Error codes (`enum BMPError : int32_t`) -/

def BMP_SUCCESS : Int := 0
def BMP_OOM : Int := 0xE001
def BMP_FILEERROR : Int := 0xE002
def BMP_OOB : Int := 0xE003
def BMP_NOTINIT : Int := 0xE004
def BMP_INVALID_HDR : Int := 0xE005
def BMP_INVALID_DIB : Int := 0xE006
def BMP_UNSUPPORTED_FMT : Int := 0xE007
def BMP_ALREADY_INIT : Int := 0xE008
def BMP_BAD_INPUT : Int := 0xE009

/-! ## Data model -/

/-- `struct FileHeader` (`#pragma pack(2)`, 14 bytes): header type tag,
total file size, two 2-byte reserved regions (kept as individual bytes),
pixel-data offset. -/
structure FileHeader where
  header_type : Nat
  size : Nat
  rsvd1a : Nat
  rsvd1b : Nat
  rsvd2a : Nat
  rsvd2b : Nat
  offset : Nat
  deriving Repr, DecidableEq

/-- `struct BitmapInfoHeader` (`#pragma pack(4)`, 40 bytes).  `width`,
`height`, `hres`, `vres` are `int32_t`; the remaining fields unsigned. -/
structure BitmapInfoHeader where
  size : Nat
  width : Int
  height : Int
  color_planes : Nat
  bbp : Nat
  compression : Nat
  raw_size : Nat
  hres : Int
  vres : Int
  n_colors : Nat
  icolors : Nat
  deriving Repr, DecidableEq

/-- The state of a `Bitmap<Pixel::BGR24>` instance: the pixel buffer (`none`
models the absence of an allocation), the `loaded` flag, the DIB header, the
file header and the DPI setting. -/
structure BitmapState where
  pixel_array : Option (List Nat)
  loaded : Bool
  dib : BitmapInfoHeader
  file_header : FileHeader
  dpi : Nat
  deriving Repr, DecidableEq

/-! ## Byte-level codecs

The C++ code serializes headers by `fwrite`-ing the packed structs and reads
them back by `fread`-ing onto them; with the `#pragma pack` directives the
memory image is the little-endian field-by-field layout below. -/

/-- Little-endian bytes of a 16-bit field. -/
def le2 (v : Nat) : List Nat := [v % 256, v / 256 % 256]

/-- Little-endian bytes of a 32-bit field. -/
def le4 (v : Nat) : List Nat :=
  [v % 256, v / 256 % 256, v / 65536 % 256, v / 16777216 % 256]

/-- The 14-byte memory image of a `FileHeader`. -/
def encodeFileHeader (fh : FileHeader) : List Nat :=
  le2 fh.header_type ++ le4 fh.size ++
    [fh.rsvd1a % 256, fh.rsvd1b % 256, fh.rsvd2a % 256, fh.rsvd2b % 256] ++
    le4 fh.offset

/-- The 40-byte memory image of a `BitmapInfoHeader`. -/
def encodeDIB (d : BitmapInfoHeader) : List Nat :=
  le4 d.size ++ le4 (int32bits d.width) ++ le4 (int32bits d.height) ++
    le2 d.color_planes ++ le2 d.bbp ++ le4 d.compression ++ le4 d.raw_size ++
    le4 (int32bits d.hres) ++ le4 (int32bits d.vres) ++
    le4 d.n_colors ++ le4 d.icolors

/-- Read a signed 32-bit field out of its unsigned byte reassembly. -/
def i32ofNat (n : Nat) : Int := wrap32 (n : Int)

/-- Decode 14 bytes into a `FileHeader` (the effect of `fread` onto the packed
struct).  The input always has length 14 where this is used. -/
def decodeFileHeader : List Nat → FileHeader
  | b0 :: b1 :: b2 :: b3 :: b4 :: b5 :: b6 :: b7 :: b8 :: b9 ::
      b10 :: b11 :: b12 :: b13 :: _ =>
    { header_type := b0 + 256 * b1
      size := b2 + 256 * b3 + 65536 * b4 + 16777216 * b5
      rsvd1a := b6, rsvd1b := b7, rsvd2a := b8, rsvd2b := b9
      offset := b10 + 256 * b11 + 65536 * b12 + 16777216 * b13 }
  | _ => ⟨0, 0, 0, 0, 0, 0, 0⟩

/-- Decode 40 bytes into a `BitmapInfoHeader`. -/
def decodeDIB : List Nat → BitmapInfoHeader
  | b0 :: b1 :: b2 :: b3 :: b4 :: b5 :: b6 :: b7 :: b8 :: b9 ::
      b10 :: b11 :: b12 :: b13 :: b14 :: b15 :: b16 :: b17 :: b18 :: b19 ::
      b20 :: b21 :: b22 :: b23 :: b24 :: b25 :: b26 :: b27 :: b28 :: b29 ::
      b30 :: b31 :: b32 :: b33 :: b34 :: b35 :: b36 :: b37 :: b38 :: b39 :: _ =>
    { size := b0 + 256 * b1 + 65536 * b2 + 16777216 * b3
      width := i32ofNat (b4 + 256 * b5 + 65536 * b6 + 16777216 * b7)
      height := i32ofNat (b8 + 256 * b9 + 65536 * b10 + 16777216 * b11)
      color_planes := b12 + 256 * b13
      bbp := b14 + 256 * b15
      compression := b16 + 256 * b17 + 65536 * b18 + 16777216 * b19
      raw_size := b20 + 256 * b21 + 65536 * b22 + 16777216 * b23
      hres := i32ofNat (b24 + 256 * b25 + 65536 * b26 + 16777216 * b27)
      vres := i32ofNat (b28 + 256 * b29 + 65536 * b30 + 16777216 * b31)
      n_colors := b32 + 256 * b33 + 65536 * b34 + 16777216 * b35
      icolors := b36 + 256 * b37 + 65536 * b38 + 16777216 * b39 }
  | _ => ⟨0, 0, 0, 0, 0, 0, 0, 0, 0, 0, 0⟩

/-- `fread` of `n` bytes at position `pos` into a struct whose current memory
image is `old` (length `n`): the bytes actually available come from the file,
the remaining suffix of the struct keeps its previous bytes. -/
def freadBytes (file : List Nat) (pos n : Nat) (old : List Nat) : List Nat :=
  let got := (file.drop pos).take n
  got ++ old.drop got.length

/-- Memory image of the whole pixel array. -/
def serializePixels : List Nat → List Nat
  | [] => []
  | v :: t => v % 256 :: v / 256 % 256 :: v / 65536 % 256 :: serializePixels t

/-- Rebuild `n` pixels from a byte stream (the effect of `fread` into a fresh
`new Pixel[n]` allocation; bytes past end-of-file are modelled as zero). -/
def deserializePixels : Nat → List Nat → List Nat
  | 0, _ => []
  | n + 1, b =>
    (b.getD 0 0 + 256 * b.getD 1 0 + 65536 * b.getD 2 0) ::
      deserializePixels n (b.drop 3)

/-! ## The operations of `Bitmap<Pixel::BGR24>` -/

namespace Bitmap

/-- `Bitmap::pixel_index(row, col)`: both coordinates are converted to
`int32_t`, `row + col * dib.width` is computed in 32-bit `int` arithmetic and
the result is converted to the `uint64_t` return type. -/
def pixel_index (width : Int) (row col : Nat) : Nat :=
  toU64 (wrap32 (wrap32 row + wrap32 col * width))

/-- `Bitmap::pixel_max()`: `dib.width * dib.height` in 32-bit `int`
arithmetic, converted to the `uint64_t` return type. -/
def pixel_max (st : BitmapState) : Nat :=
  toU64 (wrap32 (st.dib.width * st.dib.height))

/-- `Bitmap::create(width, height)` (source lines 557-594).  The parameters
are `uint64_t`; `sizeof(Pixel) = 3`.  `new` is modelled as always succeeding
(in C++ a failed `new[]` throws, so the null check never fires), and the
`memset` zeroes the whole allocation. -/
def create (st : BitmapState) (width height : Nat) : Int × BitmapState :=
  if st.loaded then (BMP_ALREADY_INIT, st) else
  let rawsz := (width * height) % pow64 * 3 % pow32
  let res := wrap32 ((st.dpi * 393701 / 10000 : Nat) : Int)
  let fh : FileHeader :=
    { header_type := 0x4D42
      size := (54 + rawsz) % pow32
      rsvd1a := st.file_header.rsvd1a, rsvd1b := st.file_header.rsvd1b
      rsvd2a := st.file_header.rsvd2a, rsvd2b := st.file_header.rsvd2b
      offset := 54 }
  let dib : BitmapInfoHeader :=
    { size := 40
      width := wrap32 width
      height := wrap32 height
      color_planes := 1, bbp := 24, compression := 0
      raw_size := rawsz
      hres := res, vres := res
      n_colors := 0, icolors := 0 }
  let buf := List.replicate ((width * height) % pow64) (0 : Nat)
  (BMP_SUCCESS, { pixel_array := some buf, loaded := true, dib := dib,
                  file_header := fh, dpi := st.dpi })

/-- Result of `Bitmap::write`: status, the bytes put on disk (`none` when no
file was written), and the instance state afterwards. -/
structure WriteOut where
  err : Int
  file : Option (List Nat)
  st : BitmapState
  deriving Repr, DecidableEq

/-- `Bitmap::write(filename)` (source lines 597-628).  `canOpen` models
whether `fopen(filename, "wb+")` succeeds.  The pixel `fwrite` emits
`dib.width * dib.height * sizeof(Pixel)` bytes of the array's memory image;
the padding loop appends `4 - file_header.size % 4` zero bytes when
`file_header.size % 4 > 0`. -/
def write (canOpen : Bool) (st : BitmapState) : WriteOut :=
  if !st.loaded then ⟨BMP_NOTINIT, none, st⟩
  else if !canOpen then ⟨BMP_FILEERROR, none, st⟩
  else
    let buf := st.pixel_array.getD []
    let nbytes := toU64 (wrap32 (st.dib.width * st.dib.height)) * 3 % pow64
    let body := encodeFileHeader st.file_header ++ encodeDIB st.dib ++
      (serializePixels buf).take nbytes
    let padding := st.file_header.size % 4
    let out := if padding > 0 then body ++ List.replicate (4 - padding) 0 else body
    ⟨BMP_SUCCESS, some out, st⟩

/-- Result of `Bitmap::load`: status, instance state afterwards, whether the
file was opened, and whether the opened handle was closed again. -/
structure LoadOut where
  err : Int
  st : BitmapState
  opened : Bool
  closed : Bool
  deriving Repr, DecidableEq

/-- `Bitmap::load(filename)` (source lines 500-554), on a file that exists
with contents `file`.  Each `fread` lands on the corresponding member struct;
only the success path reaches the `fclose`. -/
def load (st : BitmapState) (file : List Nat) : LoadOut :=
  if st.loaded then ⟨BMP_ALREADY_INIT, st, false, false⟩
  else
    let fh' := decodeFileHeader (freadBytes file 0 14 (encodeFileHeader st.file_header))
    let pos1 := min 14 file.length
    let st1 := { st with file_header := fh' }
    if fh'.header_type ≠ 0x4D42 then ⟨BMP_INVALID_HDR, st1, true, false⟩
    else
      let dib' := decodeDIB (freadBytes file pos1 40 (encodeDIB st.dib))
      let pos2 := pos1 + ((file.drop pos1).take 40).length
      let st2 := { st1 with dib := dib' }
      if dib'.size ≠ 40 then ⟨BMP_UNSUPPORTED_FMT, st2, true, false⟩
      else if dib'.bbp ≠ 24 then ⟨BMP_UNSUPPORTED_FMT, st2, true, false⟩
      else if dib'.compression ≠ 0 then ⟨BMP_UNSUPPORTED_FMT, st2, true, false⟩
      else if dib'.color_planes ≠ 1 then ⟨BMP_INVALID_DIB, st2, true, false⟩
      else
        let st3 := { st2 with dpi := int32bits dib'.hres }
        let nAlloc := toU64 (wrap32 (dib'.width * dib'.height))
        let nbytes := nAlloc * 3 % pow64
        let buf := deserializePixels nAlloc ((file.drop pos2).take nbytes)
        ⟨BMP_SUCCESS, { st3 with pixel_array := some buf, loaded := true },
          true, true⟩

/-- `Bitmap::get(row, col, pixel)` (source lines 631-647).  Returns the status
and, on success, the pixel copied out (the caller's pixel is untouched
otherwise). -/
def get (st : BitmapState) (row col : Nat) : Int × Option Nat :=
  match st.pixel_array, st.loaded with
  | some buf, true =>
    let idx := pixel_index st.dib.width row col
    if pixel_max st ≤ idx then (BMP_OOB, none)
    else (BMP_SUCCESS, some (buf.getD idx 0))
  | _, _ => (BMP_NOTINIT, none)

/-- `Bitmap::set(row, col, pixel)` (source lines 650-666). -/
def set (st : BitmapState) (row col pix : Nat) : Int × BitmapState :=
  match st.pixel_array, st.loaded with
  | some buf, true =>
    let idx := pixel_index st.dib.width row col
    if pixel_max st ≤ idx then (BMP_OOB, st)
    else (BMP_SUCCESS, { st with pixel_array := some (buf.set idx pix) })
  | _, _ => (BMP_NOTINIT, st)

/-- `Bitmap::width()` (source lines 669-677): returns `dib.width`, or the
error code `BMP_NOTINIT` on the same `int32_t` channel. -/
def width (st : BitmapState) : Int :=
  if st.loaded then st.dib.width else BMP_NOTINIT

/-- `Bitmap::height()` (source lines 680-688): note that the loaded branch
returns `dib.width`, exactly as the source does. -/
def height (st : BitmapState) : Int :=
  if st.loaded then st.dib.width else BMP_NOTINIT

end Bitmap

/-- A freshly constructed instance (`Bitmap bmp;`): `loaded = false`, default
DPI 72, no allocation; the uninitialized header structs are taken as zero. -/
def freshBitmap : BitmapState :=
  { pixel_array := none, loaded := false
    dib := ⟨0, 0, 0, 0, 0, 0, 0, 0, 0, 0, 0⟩
    file_header := ⟨0, 0, 0, 0, 0, 0, 0⟩
    dpi := 72 }

/-- The file header `create(w, h)` builds (for `w * h` below `2^64`). -/
def createdFH (st : BitmapState) (w h : Nat) : FileHeader :=
  ⟨0x4D42, (54 + w * h * 3 % pow32) % pow32, st.file_header.rsvd1a,
   st.file_header.rsvd1b, st.file_header.rsvd2a, st.file_header.rsvd2b, 54⟩

/-- The DIB header `create(w, h)` builds (for `w`, `h` below `2^31`). -/
def createdDIB (dpi w h : Nat) : BitmapInfoHeader :=
  ⟨40, (w : Int), (h : Int), 1, 24, 0, w * h * 3 % pow32,
   wrap32 ((dpi * 393701 / 10000 : Nat) : Int),
   wrap32 ((dpi * 393701 / 10000 : Nat) : Int), 0, 0⟩

/-- The whole instance state after a successful `create(w, h)` in the
small-dimension regime. -/
def createdState (st : BitmapState) (w h : Nat) : BitmapState :=
  ⟨some (List.replicate (w * h) 0), true, createdDIB st.dpi w h,
   createdFH st w h, st.dpi⟩

/-- The instance produced by `create(4, 4)` on a fresh default-DPI instance
(the concrete scenario of the spec's §8). -/
def stC8 : BitmapState := (Bitmap.create freshBitmap 4 4).2

/-- A well-formed BMP file declaring `width = 2^30`, `height = 4` (so that
`width * height` is exactly `2^32`) and no pixel payload. -/
def fileC10 : List Nat :=
  encodeFileHeader ⟨19778, 54, 0, 0, 0, 0, 54⟩ ++
    encodeDIB ⟨40, 1073741824, 4, 1, 24, 0, 0, 0, 0, 0, 0⟩

/-- The instance state `load` produces from `fileC10`: loaded, width `2^30`,
height `4`, and an empty pixel buffer (the allocation size `width * height`
wraps to `0` in the 32-bit multiplication). -/
def stC10 : BitmapState :=
  ⟨some [], true, ⟨40, 1073741824, 4, 1, 24, 0, 0, 0, 0, 0, 0⟩,
   ⟨19778, 54, 0, 0, 0, 0, 54⟩, 0⟩

/-! ## Supporting lemmas -/

theorem wrap32_coe_lt (n : Nat) (h : n < 2147483648) : wrap32 (n : Int) = n := by
  simp only [wrap32]; split <;> omega

theorem int32bits_lt (i : Int) : int32bits i < 4294967296 := by
  simp only [int32bits]; omega

theorem i32ofNat_int32bits (i : Int) : i32ofNat (int32bits i) = wrap32 i := by
  simp only [i32ofNat, int32bits, wrap32]
  have h0 : ((i % 4294967296).toNat : Int) = i % 4294967296 := by omega
  rw [h0, Int.emod_emod_of_dvd i (dvd_refl _)]

theorem toU64_coe (n : Nat) (h : n < 18446744073709551616) : toU64 (n : Int) = n := by
  simp only [toU64]; omega

theorem wrap32_mul_coe (w h : Nat) (hwh : w * h < 2147483648) :
    wrap32 ((w : Int) * (h : Int)) = ((w * h : Nat) : Int) := by
  rw [show ((w : Int) * (h : Int)) = ((w * h : Nat) : Int) by push_cast; ring]
  exact wrap32_coe_lt _ hwh

theorem le4_sum (v : Nat) :
    v % 256 + 256 * (v / 256 % 256) + 65536 * (v / 65536 % 256) +
      16777216 * (v / 16777216 % 256) = v % 4294967296 := by omega

theorem le2_sum (v : Nat) : v % 256 + 256 * (v / 256 % 256) = v % 65536 := by omega

theorem encodeFileHeader_length (fh : FileHeader) : (encodeFileHeader fh).length = 14 := by
  simp [encodeFileHeader, le2, le4]

theorem encodeDIB_length (d : BitmapInfoHeader) : (encodeDIB d).length = 40 := by
  simp [encodeDIB, le2, le4]

theorem decodeFileHeader_encodeFileHeader (fh : FileHeader) :
    decodeFileHeader (encodeFileHeader fh) =
      ⟨fh.header_type % 65536, fh.size % pow32, fh.rsvd1a % 256, fh.rsvd1b % 256,
       fh.rsvd2a % 256, fh.rsvd2b % 256, fh.offset % pow32⟩ := by
  simp only [encodeFileHeader, le2, le4, List.cons_append, List.nil_append,
    decodeFileHeader, pow32]
  rw [FileHeader.mk.injEq]
  refine ⟨by omega, by omega, rfl, rfl, rfl, rfl, by omega⟩

theorem decodeDIB_encodeDIB (d : BitmapInfoHeader) :
    decodeDIB (encodeDIB d) =
      ⟨d.size % pow32, wrap32 d.width, wrap32 d.height, d.color_planes % 65536,
       d.bbp % 65536, d.compression % pow32, d.raw_size % pow32, wrap32 d.hres,
       wrap32 d.vres, d.n_colors % pow32, d.icolors % pow32⟩ := by
  simp only [encodeDIB, le2, le4, List.cons_append, List.nil_append, decodeDIB, pow32]
  rw [BitmapInfoHeader.mk.injEq]
  have hw := le4_sum (int32bits d.width)
  have hh := le4_sum (int32bits d.height)
  have hhr := le4_sum (int32bits d.hres)
  have hvr := le4_sum (int32bits d.vres)
  refine ⟨by omega, ?_, ?_, by omega, by omega, by omega, by omega, ?_, ?_, by omega, by omega⟩
  · rw [hw, Nat.mod_eq_of_lt (int32bits_lt _)]; exact i32ofNat_int32bits _
  · rw [hh, Nat.mod_eq_of_lt (int32bits_lt _)]; exact i32ofNat_int32bits _
  · rw [hhr, Nat.mod_eq_of_lt (int32bits_lt _)]; exact i32ofNat_int32bits _
  · rw [hvr, Nat.mod_eq_of_lt (int32bits_lt _)]; exact i32ofNat_int32bits _

theorem serializePixels_length (l : List Nat) :
    (serializePixels l).length = 3 * l.length := by
  induction l with
  | nil => rfl
  | cons x t ih => simp [serializePixels, ih]; omega

theorem serializePixels_replicate (n : Nat) :
    serializePixels (List.replicate n 0) = List.replicate (3 * n) 0 := by
  induction n with
  | zero => rfl
  | succ k ih =>
    rw [List.replicate_succ, serializePixels, ih,
      show 3 * (k + 1) = 3 * k + 1 + 1 + 1 by ring]
    simp [List.replicate_succ]

theorem deserializePixels_replicate (n : Nat) :
    deserializePixels n (List.replicate (3 * n) 0) = List.replicate n 0 := by
  induction n with
  | zero => rfl
  | succ k ih =>
    rw [show 3 * (k + 1) = 3 * k + 1 + 1 + 1 by ring]
    simp only [List.replicate_succ, deserializePixels, List.getD_cons_zero,
      List.getD_cons_succ, List.drop_succ_cons, List.drop_zero]
    simp [ih, List.replicate_succ]

theorem getD_set_self (l : List Nat) (i : Nat) (a : Nat) (h : i < l.length) :
    (l.set i a).getD i 0 = a := by
  induction l generalizing i with
  | nil => simp at h
  | cons x t ih =>
    cases i with
    | zero => simp
    | succ j => simpa using ih j (by simpa using h)

theorem wrap32_wrap32 (x : Int) : wrap32 (wrap32 x) = wrap32 x := by
  unfold wrap32; split <;> split <;> omega

theorem create_eq (st : BitmapState) (w h : Nat) (h1 : st.loaded = false)
    (hw : w < 2147483648) (hh : h < 2147483648) (hwh : w * h < 2147483648) :
    Bitmap.create st w h = (BMP_SUCCESS, createdState st w h) := by
  have hwh64 : (w * h) % pow64 = w * h :=
    Nat.mod_eq_of_lt (by unfold pow64; omega)
  simp [Bitmap.create, h1, hwh64, wrap32_coe_lt _ hw, wrap32_coe_lt _ hh,
    createdState, createdDIB, createdFH]

theorem write_unfold (st : BitmapState) (h : st.loaded = true) :
    Bitmap.write true st =
      ⟨BMP_SUCCESS,
       some (encodeFileHeader st.file_header ++ encodeDIB st.dib ++
         (serializePixels (st.pixel_array.getD [])).take
           (toU64 (wrap32 (st.dib.width * st.dib.height)) * 3 % pow64) ++
         List.replicate ((4 - st.file_header.size % 4) % 4) 0),
       st⟩ := by
  have hp : st.file_header.size % 4 < 4 := Nat.mod_lt _ (by omega)
  simp only [Bitmap.write, h, Bool.not_true, Bool.false_eq_true, if_false,
    Bool.not_false, if_true]
  rcases Nat.eq_zero_or_pos (st.file_header.size % 4) with h0 | h0
  · simp [h0, List.append_assoc]
  · have : (4 - st.file_header.size % 4) % 4 = 4 - st.file_header.size % 4 :=
      Nat.mod_eq_of_lt (by omega)
    simp [h0, this, List.append_assoc]

theorem write_created (st : BitmapState) (w h : Nat) (hwh : w * h < 2147483648) :
    Bitmap.write true (createdState st w h) =
      ⟨BMP_SUCCESS,
       some (encodeFileHeader (createdFH st w h) ++ encodeDIB (createdDIB st.dpi w h) ++
         List.replicate (3 * (w * h)) 0 ++
         List.replicate ((4 - (createdFH st w h).size % 4) % 4) 0),
       createdState st w h⟩ := by
  rw [write_unfold _ rfl]
  have h1 : toU64 (wrap32 ((w : Int) * (h : Int))) = w * h := by
    rw [wrap32_mul_coe w h hwh]; exact toU64_coe _ (by omega)
  have h2 : w * h * 3 % pow64 = 3 * (w * h) := by unfold pow64; omega
  have h3 : (serializePixels (List.replicate (w * h) 0)).take (3 * (w * h)) =
      List.replicate (3 * (w * h)) 0 := by
    rw [serializePixels_replicate, List.take_replicate]
    simp
  simp only [createdState, createdDIB, Option.getD_some, h1, h2, h3]

theorem load_created (st2 st : BitmapState) (w h p : Nat) (h2 : st2.loaded = false)
    (hw : w < 2147483648) (hh : h < 2147483648) (hwh : w * h < 2147483648) :
    Bitmap.load st2
        (encodeFileHeader (createdFH st w h) ++ encodeDIB (createdDIB st.dpi w h) ++
          List.replicate (3 * (w * h)) 0 ++ List.replicate p 0) =
      ⟨BMP_SUCCESS,
       ⟨some (List.replicate (w * h) 0), true, createdDIB st.dpi w h,
        decodeFileHeader (encodeFileHeader (createdFH st w h)),
        int32bits ((createdDIB st.dpi w h).hres)⟩,
       true, true⟩ := by
  set A := encodeFileHeader (createdFH st w h) with hA
  set B := encodeDIB (createdDIB st.dpi w h) with hB
  set C := List.replicate (3 * (w * h)) (0 : Nat) with hC
  set D := List.replicate p (0 : Nat) with hD
  have lA : A.length = 14 := encodeFileHeader_length _
  have lB : B.length = 40 := encodeDIB_length _
  have lC : C.length = 3 * (w * h) := List.length_replicate _ _
  have hlen : (A ++ B ++ C ++ D).length = 14 + (40 + (3 * (w * h) + p)) := by
    simp [lA, lB, lC, hD]
  have htake14 : (A ++ B ++ C ++ D).take 14 = A := List.take_left' lA
  have hdrop14 : (A ++ B ++ C ++ D).drop 14 = B ++ C ++ D := List.drop_left' lA
  have htake40 : (B ++ C ++ D).take 40 = B := List.take_left' lB
  have hdrop54 : (A ++ B ++ C ++ D).drop 54 = C ++ D := by
    have hassoc : A ++ B ++ C ++ D = (A ++ B) ++ (C ++ D) := by
      simp [List.append_assoc]
    rw [hassoc]
    exact List.drop_left' (by simp [lA, lB])
  have hdropOldFH : (encodeFileHeader st2.file_header).drop 14 = [] := by
    rw [← encodeFileHeader_length st2.file_header]; exact List.drop_length _
  have hdropOldDIB : (encodeDIB st2.dib).drop 40 = [] := by
    rw [← encodeDIB_length st2.dib]; exact List.drop_length _
  have hmagic : (decodeFileHeader A).header_type = 19778 := by
    rw [hA, decodeFileHeader_encodeFileHeader]
    simp [createdFH]
  have hdecB : decodeDIB B = createdDIB st.dpi w h := by
    rw [hB, decodeDIB_encodeDIB]
    simp [createdDIB, pow32, wrap32_coe_lt _ hw, wrap32_coe_lt _ hh, wrap32_wrap32,
      Nat.mod_mod_of_dvd]
  have hWH : toU64 (wrap32 ((w : Int) * (h : Int))) = w * h := by
    rw [wrap32_mul_coe w h hwh]; exact toU64_coe _ (by omega)
  have hnb : w * h * 3 % pow64 = 3 * (w * h) := by unfold pow64; omega
  have htakeC : (C ++ D).take (3 * (w * h)) = C := List.take_left' lC
  have hdes : deserializePixels (w * h) C = List.replicate (w * h) 0 :=
    deserializePixels_replicate _
  have hfrA : freadBytes (A ++ B ++ C ++ D) 0 14 (encodeFileHeader st2.file_header) = A := by
    simp only [freadBytes]
    rw [List.drop_zero, htake14, lA, hdropOldFH, List.append_nil]
  have hmin' : (14 : Nat) ⊓ (A ++ B ++ C ++ D).length = 14 := by
    rw [hlen]; omega
  have hfrB : freadBytes (A ++ B ++ C ++ D) 14 40 (encodeDIB st2.dib) = B := by
    simp only [freadBytes]
    rw [hdrop14, htake40, lB, hdropOldDIB, List.append_nil]
  unfold Bitmap.load
  rw [if_neg (by simp [h2])]
  dsimp only []
  rw [hfrA, hmin', hfrB, hdecB, hdrop14, htake40, lB,
    show (14 : Nat) + 40 = 54 from rfl, hdrop54]
  simp [createdDIB, hmagic, hWH, hnb, htakeC, hdes]

/-- C1 (counterexample): at `width = 2^31`, `height = 0` the pipeline succeeds
but the loaded width is `-2^31`, not the created `2^31`. -/
theorem C1_cex :
    (Bitmap.create freshBitmap 2147483648 0).1 = BMP_SUCCESS ∧
    (Bitmap.write true (Bitmap.create freshBitmap 2147483648 0).2).err = BMP_SUCCESS ∧
    (Bitmap.load freshBitmap
      ((Bitmap.write true (Bitmap.create freshBitmap 2147483648 0).2).file.getD [])).err =
      BMP_SUCCESS ∧
    (Bitmap.load freshBitmap
      ((Bitmap.write true (Bitmap.create freshBitmap 2147483648 0).2).file.getD [])).st.dib.width =
      -2147483648 ∧
    ((-2147483648 : Int) ≠ (2147483648 : Int)) := by decide

/-- C1 (amended): round trip for in-range dimensions. -/
theorem C1_roundtrip (st1 st2 : BitmapState) (w h : Nat)
    (h1 : st1.loaded = false) (h2 : st2.loaded = false)
    (hw : w < 2147483648) (hh : h < 2147483648) (hwh : w * h < 2147483648) :
    (Bitmap.create st1 w h).1 = BMP_SUCCESS ∧
    (Bitmap.write true (Bitmap.create st1 w h).2).err = BMP_SUCCESS ∧
    (Bitmap.load st2
      ((Bitmap.write true (Bitmap.create st1 w h).2).file.getD [])).err = BMP_SUCCESS ∧
    (Bitmap.load st2
      ((Bitmap.write true (Bitmap.create st1 w h).2).file.getD [])).st.dib.width = (w : Int) ∧
    (Bitmap.load st2
      ((Bitmap.write true (Bitmap.create st1 w h).2).file.getD [])).st.dib.height = (h : Int) ∧
    (Bitmap.load st2
      ((Bitmap.write true (Bitmap.create st1 w h).2).file.getD [])).st.pixel_array =
      some (List.replicate (w * h) 0) := by
  rw [create_eq st1 w h h1 hw hh hwh]
  dsimp only []
  rw [write_created st1 w h hwh]
  dsimp only [Option.getD_some]
  rw [load_created st2 st1 w h _ h2 hw hh hwh]
  simp [createdDIB]

/-- C1 (witness): the round-trip theorem instantiated at `4 x 4`, DPI 72. -/
theorem C1_roundtrip_witness :
    freshBitmap.loaded = false ∧ (4 : Nat) < 2147483648 ∧ (4 * 4 : Nat) < 2147483648 ∧
    ((Bitmap.create freshBitmap 4 4).1 = BMP_SUCCESS ∧
     (Bitmap.write true (Bitmap.create freshBitmap 4 4).2).err = BMP_SUCCESS ∧
     (Bitmap.load freshBitmap
       ((Bitmap.write true (Bitmap.create freshBitmap 4 4).2).file.getD [])).err = BMP_SUCCESS ∧
     (Bitmap.load freshBitmap
       ((Bitmap.write true (Bitmap.create freshBitmap 4 4).2).file.getD [])).st.dib.width =
       ((4 : Nat) : Int) ∧
     (Bitmap.load freshBitmap
       ((Bitmap.write true (Bitmap.create freshBitmap 4 4).2).file.getD [])).st.dib.height =
       ((4 : Nat) : Int) ∧
     (Bitmap.load freshBitmap
       ((Bitmap.write true (Bitmap.create freshBitmap 4 4).2).file.getD [])).st.pixel_array =
       some (List.replicate (4 * 4) 0)) :=
  ⟨rfl, by decide, by decide,
   C1_roundtrip freshBitmap freshBitmap 4 4 rfl rfl (by decide) (by decide) (by decide)⟩

/-- C2: `height()` on a loaded 2 x 3 image returns the width field (2), while the
stored height is 3; `width()` returns 2; both return `BMP_NOTINIT` when unloaded. -/
theorem C2_height_returns_width :
    (Bitmap.create freshBitmap 2 3).1 = BMP_SUCCESS ∧
    Bitmap.height (Bitmap.create freshBitmap 2 3).2 = 2 ∧
    (Bitmap.create freshBitmap 2 3).2.dib.height = 3 ∧
    ((2 : Int) ≠ 3) ∧
    Bitmap.width (Bitmap.create freshBitmap 2 3).2 = 2 ∧
    Bitmap.height freshBitmap = BMP_NOTINIT ∧
    Bitmap.width freshBitmap = BMP_NOTINIT := by decide

/-- C3 (counterexample): with DPI 72 the resolution fields are 2834, not the
claimed `round(72 x 39.3701) = 2837` (nor the true rounding 2835). -/
theorem C3_cex :
    (Bitmap.create freshBitmap 4 4).2.dib.vres = 2834 ∧
    (Bitmap.create freshBitmap 4 4).2.dib.hres = 2834 ∧
    ((2834 : Int) ≠ 2837) ∧ ((2834 : Int) ≠ 2835) := by decide

/-- C3 (amended): `create` truncates `DPI x 39.3701` toward zero and stores the
same value in both resolution fields. -/
theorem C3_resolution (st : BitmapState) (w h : Nat) (hl : st.loaded = false)
    (hd : st.dpi * 393701 / 10000 < 2147483648) :
    (Bitmap.create st w h).2.dib.vres = (st.dpi * 393701 / 10000 : Nat) ∧
    (Bitmap.create st w h).2.dib.hres = (Bitmap.create st w h).2.dib.vres := by
  unfold Bitmap.create
  rw [if_neg (by simp [hl])]
  dsimp only []
  exact ⟨wrap32_coe_lt _ hd, rfl⟩

/-- C3 (witness): the amended theorem at DPI 72 gives 2834 in both fields. -/
theorem C3_resolution_witness :
    freshBitmap.loaded = false ∧ freshBitmap.dpi * 393701 / 10000 < 2147483648 ∧
    ((Bitmap.create freshBitmap 4 4).2.dib.vres = (freshBitmap.dpi * 393701 / 10000 : Nat) ∧
     (Bitmap.create freshBitmap 4 4).2.dib.hres = (Bitmap.create freshBitmap 4 4).2.dib.vres) ∧
    (Bitmap.create freshBitmap 4 4).2.dib.vres = 2834 :=
  ⟨rfl, by decide, C3_resolution freshBitmap 4 4 rfl (by decide), by decide⟩

/-- C4: loading a file whose first two bytes are not the BMP magic opens the
file, returns `BMP_INVALID_HDR`, and returns without closing the handle. -/
theorem C4_handle_leak :
    (Bitmap.load freshBitmap [0, 0]).opened = true ∧
    (Bitmap.load freshBitmap [0, 0]).err = BMP_INVALID_HDR ∧
    (Bitmap.load freshBitmap [0, 0]).closed = false := by decide

theorem decodeFileHeader_first2 (b0 b1 : Nat) (rest : List Nat) (h : 12 ≤ rest.length) :
    (decodeFileHeader (b0 :: b1 :: rest)).header_type = b0 + 256 * b1 := by
  rcases rest with _ | ⟨c0, rest⟩; · simp at h
  rcases rest with _ | ⟨c1, rest⟩; · simp at h
  rcases rest with _ | ⟨c2, rest⟩; · simp at h
  rcases rest with _ | ⟨c3, rest⟩; · simp at h
  rcases rest with _ | ⟨c4, rest⟩; · simp at h
  rcases rest with _ | ⟨c5, rest⟩; · simp at h
  rcases rest with _ | ⟨c6, rest⟩; · simp at h
  rcases rest with _ | ⟨c7, rest⟩; · simp at h
  rcases rest with _ | ⟨c8, rest⟩; · simp at h
  rcases rest with _ | ⟨c9, rest⟩; · simp at h
  rcases rest with _ | ⟨c10, rest⟩; · simp at h
  rcases rest with _ | ⟨c11, rest⟩; · simp at h
  rfl

theorem load_not_already (s : BitmapState) (f2 : List Nat) (hs : s.loaded = false) :
    (Bitmap.load s f2).err ≠ BMP_ALREADY_INIT := by
  unfold Bitmap.load
  rw [if_neg (by simp [hs])]
  dsimp only []
  split <;> try split <;> try split <;> try split <;> try split
  all_goals simp [BMP_SUCCESS, BMP_INVALID_HDR, BMP_INVALID_DIB,
    BMP_UNSUPPORTED_FMT, BMP_ALREADY_INIT]

/-- C5: a load hitting a non-BM magic fails with `BMP_INVALID_HDR`, leaves the
instance unloaded, and a subsequent load is not rejected as already
initialized. -/
theorem C5_invalid_magic (st : BitmapState) (file : List Nat)
    (h1 : st.loaded = false) (h2 : 2 ≤ file.length)
    (h3 : file.getD 0 0 + 256 * file.getD 1 0 ≠ 19778) :
    (Bitmap.load st file).err = BMP_INVALID_HDR ∧
    (Bitmap.load st file).st.loaded = false ∧
    ∀ f2 : List Nat, (Bitmap.load (Bitmap.load st file).st f2).err ≠ BMP_ALREADY_INIT := by
  rcases file with _ | ⟨a, file⟩
  · simp at h2
  rcases file with _ | ⟨b, t⟩
  · simp at h2
  simp only [List.getD_cons_zero, List.getD_cons_succ] at h3
  have hdec : (decodeFileHeader
      (freadBytes (a :: b :: t) 0 14 (encodeFileHeader st.file_header))).header_type =
      a + 256 * b := by
    have ht14 : (a :: b :: t).take 14 = a :: b :: t.take 12 := rfl
    simp only [freadBytes, List.drop_zero, ht14]
    rw [List.cons_append, List.cons_append]
    exact decodeFileHeader_first2 a b _
      (by simp [encodeFileHeader_length])
  set fh1 := decodeFileHeader (freadBytes (a :: b :: t) 0 14 (encodeFileHeader st.file_header))
    with hfh1
  have hkey : Bitmap.load st (a :: b :: t) =
      ⟨BMP_INVALID_HDR, { st with file_header := fh1 }, true, false⟩ := by
    unfold Bitmap.load
    rw [if_neg (by simp [h1])]
    dsimp only []
    rw [if_pos (by rw [hdec]; exact h3)]
  rw [hkey]
  exact ⟨rfl, h1, fun f2 => load_not_already _ f2 h1⟩

/-- C5 (witness): the theorem applied to a 3-byte file starting with two zero
bytes. -/
theorem C5_invalid_magic_witness :
    freshBitmap.loaded = false ∧ 2 ≤ ([0, 0, 7] : List Nat).length ∧
    (([0, 0, 7] : List Nat).getD 0 0 + 256 * ([0, 0, 7] : List Nat).getD 1 0 ≠ 19778) ∧
    ((Bitmap.load freshBitmap [0, 0, 7]).err = BMP_INVALID_HDR ∧
     (Bitmap.load freshBitmap [0, 0, 7]).st.loaded = false ∧
     ∀ f2 : List Nat,
       (Bitmap.load (Bitmap.load freshBitmap [0, 0, 7]).st f2).err ≠ BMP_ALREADY_INIT) :=
  ⟨rfl, by decide, by decide,
   C5_invalid_magic freshBitmap [0, 0, 7] rfl (by decide) (by decide)⟩

theorem get_set_oob (st : BitmapState) (buf : List Nat) (row col pix : Nat)
    (hl : st.loaded = true) (hb : st.pixel_array = some buf)
    (hoob : Bitmap.pixel_max st ≤ Bitmap.pixel_index st.dib.width row col) :
    Bitmap.get st row col = (BMP_OOB, none) ∧
    Bitmap.set st row col pix = (BMP_OOB, st) := by
  unfold Bitmap.get Bitmap.set
  rw [hb, hl]
  dsimp only []
  rw [if_pos hoob, if_pos hoob]
  exact ⟨rfl, rfl⟩

/-- C6: when the computed linear index reaches `pixel_max` (the code's
`width * height`), `get` and `set` return `BMP_OOB` and `set` leaves the whole
state, including the pixel buffer, unchanged. -/
theorem C6_oob (st : BitmapState) (buf : List Nat) (row col pix : Nat)
    (hl : st.loaded = true) (hb : st.pixel_array = some buf)
    (hoob : Bitmap.pixel_max st ≤ Bitmap.pixel_index st.dib.width row col) :
    Bitmap.get st row col = (BMP_OOB, none) ∧
    Bitmap.set st row col pix = (BMP_OOB, st) :=
  get_set_oob st buf row col pix hl hb hoob

/-- C6 (witness): a loaded 2 x 2 image with `row = 4`, `col = 0`, index 4. -/
theorem C6_oob_witness :
    (Bitmap.create freshBitmap 2 2).2.loaded = true ∧
    (Bitmap.create freshBitmap 2 2).2.pixel_array = some (List.replicate (2 * 2) 0) ∧
    Bitmap.pixel_max (Bitmap.create freshBitmap 2 2).2 ≤
      Bitmap.pixel_index (Bitmap.create freshBitmap 2 2).2.dib.width 4 0 ∧
    (Bitmap.get (Bitmap.create freshBitmap 2 2).2 4 0 = (BMP_OOB, none) ∧
     Bitmap.set (Bitmap.create freshBitmap 2 2).2 4 0 9 =
       (BMP_OOB, (Bitmap.create freshBitmap 2 2).2)) :=
  ⟨by decide, by decide, by decide,
   C6_oob (Bitmap.create freshBitmap 2 2).2 (List.replicate (2 * 2) 0) 4 0 9
     (by decide) (by decide) (by decide)⟩

/-- C7: within bounds (index below `pixel_max`, buffer of the invariant
length), `set` succeeds and a following `get` at the same coordinates returns
exactly the stored pixel. -/
theorem C7_set_get (st : BitmapState) (buf : List Nat) (row col pix : Nat)
    (hl : st.loaded = true) (hb : st.pixel_array = some buf)
    (hlen : buf.length = Bitmap.pixel_max st)
    (hidx : Bitmap.pixel_index st.dib.width row col < Bitmap.pixel_max st) :
    (Bitmap.set st row col pix).1 = BMP_SUCCESS ∧
    Bitmap.get (Bitmap.set st row col pix).2 row col = (BMP_SUCCESS, some pix) := by
  unfold Bitmap.set
  rw [hb, hl]
  dsimp only []
  rw [if_neg (not_le.mpr hidx)]
  refine ⟨rfl, ?_⟩
  unfold Bitmap.get
  dsimp only []
  unfold Bitmap.pixel_max at hidx ⊢
  dsimp only []
  rw [if_neg (not_le.mpr hidx)]
  rw [getD_set_self _ _ _ (by rw [hlen]; exact hidx)]

/-- C7 (witness): a loaded 2 x 2 image, `row = 1`, `col = 1` (index 3), pixel 7. -/
theorem C7_set_get_witness :
    (Bitmap.create freshBitmap 2 2).2.loaded = true ∧
    (Bitmap.create freshBitmap 2 2).2.pixel_array = some (List.replicate (2 * 2) 0) ∧
    (List.replicate (2 * 2) (0 : Nat)).length = Bitmap.pixel_max (Bitmap.create freshBitmap 2 2).2 ∧
    Bitmap.pixel_index (Bitmap.create freshBitmap 2 2).2.dib.width 1 1 <
      Bitmap.pixel_max (Bitmap.create freshBitmap 2 2).2 ∧
    ((Bitmap.set (Bitmap.create freshBitmap 2 2).2 1 1 7).1 = BMP_SUCCESS ∧
     Bitmap.get (Bitmap.set (Bitmap.create freshBitmap 2 2).2 1 1 7).2 1 1 =
       (BMP_SUCCESS, some 7)) :=
  ⟨by decide, by decide, by decide, by decide,
   C7_set_get (Bitmap.create freshBitmap 2 2).2 (List.replicate (2 * 2) 0) 1 1 7
     (by decide) (by decide) (by decide) (by decide)⟩

/-- C8: `write` emits the file header, then the DIB header, then the raw pixel
payload, then `(4 - size mod 4) mod 4` zero padding bytes. -/
theorem C8_write_layout (st : BitmapState) (hl : st.loaded = true) :
    (Bitmap.write true st).err = BMP_SUCCESS ∧
    (Bitmap.write true st).file =
      some (encodeFileHeader st.file_header ++ encodeDIB st.dib ++
        (serializePixels (st.pixel_array.getD [])).take
          (toU64 (wrap32 (st.dib.width * st.dib.height)) * 3 % pow64) ++
        List.replicate ((4 - st.file_header.size % 4) % 4) 0) := by
  rw [write_unfold st hl]
  exact ⟨rfl, rfl⟩

/-- C8 (witness): the layout theorem at the `create(4, 4)` instance; with the
14 + 40 + 48 = 102 content bytes and 2 padding bytes the file is 104 bytes. -/
theorem C8_write_layout_witness :
    stC8.loaded = true ∧
    (Bitmap.write true stC8).err = BMP_SUCCESS ∧
    stC8.file_header.size = 102 ∧
    ((Bitmap.write true stC8).file.getD []).length = 104 ∧
    (Bitmap.write true stC8).file.getD [] =
      encodeFileHeader stC8.file_header ++ encodeDIB stC8.dib ++
        List.replicate 48 0 ++ List.replicate 2 0 :=
  ⟨by decide, (C8_write_layout stC8 (by decide)).1, by decide, by decide, by decide⟩

/-- C9: `write` never changes the instance state, on the success path and on
both failure paths alike. -/
theorem C9_write_frame (st : BitmapState) (canOpen : Bool) :
    (Bitmap.write canOpen st).st = st := by
  unfold Bitmap.write
  split <;> try split
  all_goals rfl

theorem toU64_wrap32_pos (x : Int) (hnd : ¬ ((4294967296 : Int) ∣ x)) :
    0 < toU64 (wrap32 x) := by
  unfold toU64 wrap32
  split <;> omega

/-- C10 (counterexample): a loadable file declaring `2^30 x 4` pixels yields a
loaded instance (width 2 or more, height 1 or more) on which no coordinates at
all succeed: `width * height` wraps to zero in the 32-bit product, so every
access is out of bounds. -/
theorem C10_cex :
    (Bitmap.load freshBitmap fileC10).err = BMP_SUCCESS ∧
    (Bitmap.load freshBitmap fileC10).st = stC10 ∧
    stC10.loaded = true ∧ (2 : Int) ≤ stC10.dib.width ∧ (1 : Int) ≤ stC10.dib.height ∧
    ∀ row col pix : Nat,
      (Bitmap.get stC10 row col).1 ≠ BMP_SUCCESS ∧
      (Bitmap.set stC10 row col pix).1 ≠ BMP_SUCCESS := by
  refine ⟨by decide, by decide, by decide, by decide, by decide, ?_⟩
  intro row col pix
  have hmax : Bitmap.pixel_max stC10 = 0 := by decide
  have h := get_set_oob stC10 [] row col pix rfl rfl
    (by rw [hmax]; exact Nat.zero_le _)
  exact ⟨by rw [h.1]; decide, by rw [h.2]; decide⟩

/-- C10 (amended): on a loaded instance with in-range dimensions whose pixel
count does not wrap to a multiple of `2^32`, coordinates with `row = width`
(outside the logical grid) pass the bounds check: the check sees only the
wrapped linear index, here 0. -/
theorem C10_index_only (st : BitmapState) (buf : List Nat) (pix : Nat)
    (hl : st.loaded = true) (hb : st.pixel_array = some buf)
    (hw2 : 2 ≤ st.dib.width) (hwlt : st.dib.width < 2147483648)
    (hh1 : 1 ≤ st.dib.height)
    (hnd : ¬ ((4294967296 : Int) ∣ st.dib.width * st.dib.height)) :
    ∃ row col : Nat, st.dib.width ≤ (row : Int) ∧
      Bitmap.pixel_index st.dib.width row col = 0 ∧
      (Bitmap.get st row col).1 = BMP_SUCCESS ∧
      (Bitmap.set st row col pix).1 = BMP_SUCCESS := by
  have hrow : wrap32 ((st.dib.width.toNat : Nat) : Int) = st.dib.width := by
    rw [wrap32_coe_lt _ (by omega : st.dib.width.toNat < 2147483648)]
    exact Int.toNat_of_nonneg (by omega)
  have hcol : wrap32 (((4294967295 : Nat) : Nat) : Int) = -1 := by decide
  have hpi : Bitmap.pixel_index st.dib.width st.dib.width.toNat 4294967295 = 0 := by
    unfold Bitmap.pixel_index
    rw [hrow, hcol]
    rw [show st.dib.width + (-1) * st.dib.width = (0 : Int) from by ring]
    decide
  have hpos : 0 < Bitmap.pixel_max st := toU64_wrap32_pos _ hnd
  refine ⟨st.dib.width.toNat, 4294967295, Int.self_le_toNat _, hpi, ?_, ?_⟩
  · unfold Bitmap.get
    rw [hb, hl]
    dsimp only []
    rw [hpi, if_neg (by omega)]
  · unfold Bitmap.set
    rw [hb, hl]
    dsimp only []
    rw [hpi, if_neg (by omega)]

/-- C10 (witness): the amended theorem at a loaded 2 x 1 instance; `row = 2`,
`col = 2^32 - 1` succeed. -/
theorem C10_index_only_witness :
    (Bitmap.create freshBitmap 2 1).2.loaded = true ∧
    (Bitmap.create freshBitmap 2 1).2.pixel_array = some (List.replicate (2 * 1) 0) ∧
    (2 : Int) ≤ (Bitmap.create freshBitmap 2 1).2.dib.width ∧
    (Bitmap.create freshBitmap 2 1).2.dib.width < 2147483648 ∧
    (1 : Int) ≤ (Bitmap.create freshBitmap 2 1).2.dib.height ∧
    ¬ ((4294967296 : Int) ∣
        (Bitmap.create freshBitmap 2 1).2.dib.width *
          (Bitmap.create freshBitmap 2 1).2.dib.height) ∧
    (∃ row col : Nat, (Bitmap.create freshBitmap 2 1).2.dib.width ≤ (row : Int) ∧
      Bitmap.pixel_index (Bitmap.create freshBitmap 2 1).2.dib.width row col = 0 ∧
      (Bitmap.get (Bitmap.create freshBitmap 2 1).2 row col).1 = BMP_SUCCESS ∧
      (Bitmap.set (Bitmap.create freshBitmap 2 1).2 row col 9).1 = BMP_SUCCESS) :=
  ⟨by decide, by decide, by decide, by decide, by decide, by decide,
   C10_index_only (Bitmap.create freshBitmap 2 1).2 (List.replicate (2 * 1) 0) 9
     (by decide) (by decide) (by decide) (by decide) (by decide) (by decide)⟩
